import Mathlib

/-!
Verification development for the Guardian-AA SHA-256 zero-knowledge proof
engine (prover crate `guardian_zkml` and the backend `ZkmlService` adapter).

Bytes are modelled as `Fin 256`, 32-bit words as `Nat` reduced modulo `2 ^ 32`
exactly where the Rust `u32` arithmetic wraps, and the external proving
backend (halo2 setup, `create_proof`, `verify_proof`) as an abstract
`Backend` record of outcomes, since those calls live outside the crate.
All repository functions are translated from the source; the reference
SHA-256 (the `sha2` crate) is implemented from RFC 6234.
-/

abbrev Byte := Fin 256

/-- Truncate a natural number to a byte, as Rust `as u8` / byte extraction does. -/
def byteOf (n : Nat) : Byte := ⟨n % 256, Nat.mod_lt _ (by decide)⟩

/-- Wrap to 32 bits: the overflow behaviour of Rust `u32` arithmetic. -/
def w32 (n : Nat) : Nat := n % (2 ^ 32)

/-- `u32::rotate_right` on a 32-bit value. -/
def rotr32 (k n : Nat) : Nat := w32 ((n >>> k) ||| (n <<< (32 - k)))

/-- SHA-256 big sigma 0 (RFC 6234 BSIG0). -/
def bsig0 (x : Nat) : Nat := rotr32 2 x ^^^ rotr32 13 x ^^^ rotr32 22 x

/-- SHA-256 big sigma 1 (RFC 6234 BSIG1). -/
def bsig1 (x : Nat) : Nat := rotr32 6 x ^^^ rotr32 11 x ^^^ rotr32 25 x

/-- SHA-256 small sigma 0 (RFC 6234 SSIG0). -/
def ssig0 (x : Nat) : Nat := rotr32 7 x ^^^ rotr32 18 x ^^^ (x >>> 3)

/-- SHA-256 small sigma 1 (RFC 6234 SSIG1). -/
def ssig1 (x : Nat) : Nat := rotr32 17 x ^^^ rotr32 19 x ^^^ (x >>> 10)

/-- SHA-256 choice function CH(x,y,z) = (x AND y) XOR (NOT x AND z) on 32 bits. -/
def chF (x y z : Nat) : Nat := (x &&& y) ^^^ ((x ^^^ 0xffffffff) &&& z)

/-- SHA-256 majority function MAJ(x,y,z). -/
def majF (x y z : Nat) : Nat := (x &&& y) ^^^ (x &&& z) ^^^ (y &&& z)

/-- The SHA-256 initial hash state H(0) (FIPS 180-4 section 5.3.3). -/
def initH : List Nat :=
  [0x6A09E667, 0xBB67AE85, 0x3C6EF372, 0xA54FF53A,
   0x510E527F, 0x9B05688C, 0x1F83D9AB, 0x5BE0CD19]

/-- The 64 SHA-256 round constants K (FIPS 180-4 section 4.2.2). -/
def roundK : List Nat :=
  [0x428A2F98, 0x71374491, 0xB5C0FBCF, 0xE9B5DBA5, 0x3956C25B, 0x59F111F1, 0x923F82A4, 0xAB1C5ED5,
   0xD807AA98, 0x12835B01, 0x243185BE, 0x550C7DC3, 0x72BE5D74, 0x80DEB1FE, 0x9BDC06A7, 0xC19BF174,
   0xE49B69C1, 0xEFBE4786, 0x0FC19DC6, 0x240CA1CC, 0x2DE92C6F, 0x4A7484AA, 0x5CB0A9DC, 0x76F988DA,
   0x983E5152, 0xA831C66D, 0xB00327C8, 0xBF597FC7, 0xC6E00BF3, 0xD5A79147, 0x06CA6351, 0x14292967,
   0x27B70A85, 0x2E1B2138, 0x4D2C6DFC, 0x53380D13, 0x650A7354, 0x766A0ABB, 0x81C2C92E, 0x92722C85,
   0xA2BFE8A1, 0xA81A664B, 0xC24B8B70, 0xC76C51A3, 0xD192E819, 0xD6990624, 0xF40E3585, 0x106AA070,
   0x19A4C116, 0x1E376C08, 0x2748774C, 0x34B0BCB5, 0x391C0CB3, 0x4ED8AA4A, 0x5B9CCA4F, 0x682E6FF3,
   0x748F82EE, 0x78A5636F, 0x84C87814, 0x8CC70208, 0x90BEFFFA, 0xA4506CEB, 0xBEF9A3F7, 0xC67178F2]

/-- Big-endian 4-byte chunks to 32-bit words, as `chunks_exact(4)` +
`u32::from_be_bytes` in `data_as_padded_32bit_words` (any sub-word remainder
is dropped, matching `chunks_exact`). -/
def bytesToWords : List Byte → List Nat
  | a :: b :: c :: d :: rest =>
      (a.val * 16777216 + b.val * 65536 + c.val * 256 + d.val) :: bytesToWords rest
  | _ => []

/-- A 32-bit word to its four big-endian bytes. -/
def wordBytes (n : Nat) : List Byte :=
  [byteOf (n >>> 24), byteOf (n >>> 16), byteOf (n >>> 8), byteOf n]

/-- `u64::to_be_bytes` of a 64-bit value (the input is already reduced
modulo `2 ^ 64` where this is used). -/
def be64Bytes (n : Nat) : List Byte :=
  [byteOf (n >>> 56), byteOf (n >>> 48), byteOf (n >>> 40), byteOf (n >>> 32),
   byteOf (n >>> 24), byteOf (n >>> 16), byteOf (n >>> 8), byteOf n]

/-- Extend a 16-word message block by `k` further schedule words
(W16..W63 via SSIG1/SSIG0, RFC 6234 section 6.2 step 1). -/
def scheduleExtend : List Nat → Nat → List Nat
  | w, 0 => w
  | w, k + 1 =>
      let n := w.length
      let x := w32 (ssig1 (w.getD (n - 2) 0) + w.getD (n - 7) 0 +
                    ssig0 (w.getD (n - 15) 0) + w.getD (n - 16) 0)
      scheduleExtend (w ++ [x]) k

/-- The full 64-word message schedule of one block. -/
def schedule (block : List Nat) : List Nat := scheduleExtend block 48

/-- One SHA-256 compression round on the 8-word working state `[a,...,h]`. -/
def compressStep (kw : Nat × Nat) (st : List Nat) : List Nat :=
  match st with
  | [a, b, c, d, e, f, g, h] =>
      let t1 := w32 (h + bsig1 e + chF e f g + kw.1 + kw.2)
      let t2 := w32 (bsig0 a + majF a b c)
      [w32 (t1 + t2), a, b, c, w32 (d + t1), e, f, g]
  | other => other

/-- Compress one 16-word block into the running hash state, adding the
result back into the incoming state (RFC 6234 section 6.2 steps 2-4). -/
def compressBlock (H : List Nat) (block : List Nat) : List Nat :=
  let final := (List.zip roundK (schedule block)).foldl (fun st kw => compressStep kw st) H
  List.zipWith (fun x y => w32 (x + y)) H final

/-- Fold the compression function over all blocks. -/
def processBlocks (H : List Nat) (blocks : List (List Nat)) : List Nat :=
  blocks.foldl compressBlock H

/-- Split a word list into 16-word blocks, structurally recursive on a fuel
bound so the kernel can evaluate it; the fuel is the list length, enough
since every step consumes at least one element. -/
def wordsToBlocksAux : Nat → List Nat → List (List Nat)
  | 0, _ => []
  | _ + 1, [] => []
  | fuel + 1, l => l.take 16 :: wordsToBlocksAux fuel (l.drop 16)

/-- Split a word list into 16-word blocks, as `chunks(16)`. -/
def wordsToBlocks (l : List Nat) : List (List Nat) :=
  wordsToBlocksAux l.length l

/-- Zeros appended by SHA-256 padding after the 0x80 byte, for an input of
`len` bytes: the minimal count making the length congruent to 56 mod 64. -/
def padSpecZeros (len : Nat) : Nat := (64 + 56 - ((len + 1) % 64)) % 64

/-- The reference SHA-256 / RFC 6234 padding, written from the spec's words:
the input bytes, then 0x80, then minimal zeros to reach 56 mod 64, then the
original bit length as a 64-bit big-endian integer. -/
def sha256PadSpec (data : List Byte) : List Byte :=
  data ++ [(0x80 : Byte)] ++ List.replicate (padSpecZeros data.length) (0 : Byte) ++
    be64Bytes ((data.length * 8) % (2 ^ 64))

/-- The reference SHA-256 state of a byte string, as eight 32-bit words.
Models the `sha2` crate's `Sha256` used by `verify_proof_slice`. -/
def sha256Words (data : List Byte) : List Nat :=
  processBlocks initH (wordsToBlocks (bytesToWords (sha256PadSpec data)))

/-- The reference SHA-256 digest of a byte string, as 32 bytes. -/
def sha256Bytes (data : List Byte) : List Byte :=
  ((sha256Words data).map wordBytes).flatten

/-! ## The circuit's padding (`MyCircuit::data_as_padded_32bit_words`) -/

/-- The zero-padding `while` loop of `data_as_padded_32bit_words`:
push `0x00` while the byte length is not congruent to 56 mod 64. -/
def padZeros (l : List Byte) : List Byte :=
  if l.length % 64 = 56 then l else padZeros (l ++ [(0 : Byte)])
termination_by (64 + 56 - l.length % 64) % 64
decreasing_by
  simp only [List.length_append, List.length_cons, List.length_nil]
  omega

/-- The byte-level padding performed inside `data_as_padded_32bit_words`:
clone the data, record the bit length as `u64`, append `0x80`, run the
zero-padding loop, append the bit length big-endian. -/
def padBytes (data : List Byte) : List Byte :=
  let dataLenBits := (data.length * 8) % (2 ^ 64)
  padZeros (data ++ [(0x80 : Byte)]) ++ be64Bytes dataLenBits

/-- `MyCircuit::data_as_padded_32bit_words`: the padded bytes as big-endian
32-bit words. -/
def data_as_padded_32bit_words (data : List Byte) : List Nat :=
  bytesToWords (padBytes data)

/-! ## The prover crate (`guardian_zkml/src/lib.rs`) -/

/-- The cached `ProvingSystem` artifacts: `params`, `pk`, `vk` are opaque
halo2 objects, modelled as abstract identifiers. -/
structure ProvingSystem where
  params : Nat
  pk : Nat
  vk : Nat
deriving DecidableEq

/-- The outcomes of the external halo2 calls the crate makes. `initOk` is
whether `ProvingSystem::load_or_generate` succeeds, `system` the artifacts it
yields then, `proveOk`/`proofBytes` the outcome and transcript of
`create_proof` per input, `verifyCheck` the outcome of
`halo2_proofs::plonk::verify_proof` per (public hash, proof bytes). -/
structure Backend where
  initOk : Bool
  system : ProvingSystem
  proveOk : List Byte → Bool
  proofBytes : List Byte → List Byte
  verifyCheck : List Byte → List Byte → Except String Unit

/-- The FFI `Output` struct: `len` plus a 32-byte hash. -/
structure Output where
  len : Nat
  hash : List Byte
deriving DecidableEq

/-- The all-zero 32-byte hash, the failure sentinel's hash field. -/
def zeroHash32 : List Byte := List.replicate 32 (0 : Byte)

/-- Modelled from the spec: `Sha256Circuit::expected_hash` is referenced by
`generate_proof_internal` but its definition is not among the source files
(`circuit.rs` defines only `MyCircuit`, without `new` or `expected_hash`).
Per the spec, proving yields the real SHA-256 digest of the preimage
("PublicDigest ... Must equal the real SHA-256 digest of the preimage"),
which the crate's own tests also assert. -/
def expected_hash (data : List Byte) : List Byte := sha256Bytes data

/-- `generate_proof_internal`: obtain the proving system (error when it was
never initialized), compute the circuit's expected hash, run `create_proof`
(error when proof creation fails), return the hash and transcript bytes. -/
def generate_proof_internal (B : Backend) (data : List Byte) :
    Except String (List Byte × List Byte) :=
  if B.initOk then
    if B.proveOk data then .ok (expected_hash data, B.proofBytes data)
    else .error "Proof creation failed"
  else .error "Proving system not initialized"

/-- `generate_proof_slice`: on success an `Output` with the data's length
and the hash; on any failure the sentinel `Output { len: 0, hash: [0; 32] }`. -/
def generate_proof_slice (B : Backend) (data : List Byte) : Output :=
  match generate_proof_internal B data with
  | .ok (hash, _) => { len := data.length, hash := hash }
  | .error _ => { len := 0, hash := zeroHash32 }

/-- `verify_proof_slice`: recompute the SHA-256 digest of `data` with the
`sha2` crate and compare it with `output.hash`; the proof transcript is not
consulted in this interface. -/
def verify_proof_slice (data : List Byte) (output : Output) : Bool :=
  decide (output.hash = sha256Bytes data)

/-- `verify_proof_internal`: obtain the proving system (error when it was
never initialized), replay the transcript through halo2 `verify_proof`, and
map its `Ok`/`Err` outcome to `Ok(true)`/`Ok(false)`. -/
def verify_proof_internal (B : Backend) (hash : List Byte) (proofBytes : List Byte) :
    Except String Bool :=
  if B.initOk then
    match B.verifyCheck hash proofBytes with
    | .ok _ => .ok true
    | .error _ => .ok false
  else .error "Proving system not initialized"

/-! ## The lazy proving-system singleton (`get_proving_system`) -/

/-- The process-wide mutable state behind `get_proving_system`: the
`std::sync::Once` flag, the cached `PROVING_SYSTEM`, and a count of how many
times `ProvingSystem::generate_new` has executed. -/
structure SysState where
  onceDone : Bool
  cached : Option ProvingSystem
  setupRuns : Nat
deriving DecidableEq

/-- Process start: nothing initialized, setup never run. -/
def initState : SysState := { onceDone := false, cached := none, setupRuns := 0 }

/-- The `INIT_LOCK.call_once` body: when the once flag is unset, run
`ProvingSystem::load_or_generate` (counted as one setup run) and store its
result; otherwise leave the state untouched. -/
def runOnceInit (B : Backend) (s : SysState) : SysState :=
  if s.onceDone then s
  else
    { onceDone := true,
      cached := if B.initOk then some B.system else none,
      setupRuns := s.setupRuns + 1 }

/-- `get_proving_system`: run the once-guarded initializer, then return the
cached system or the "Proving system not initialized" error. -/
def get_proving_system (B : Backend) (s : SysState) :
    Except String ProvingSystem × SysState :=
  let s1 := runOnceInit B s
  (match s1.cached with
   | some ps => .ok ps
   | none => .error "Proving system not initialized", s1)

/-- The state after `n` calls to `get_proving_system` from process start. -/
def callSeq (B : Backend) : Nat → SysState
  | 0 => initState
  | n + 1 => (get_proving_system B (callSeq B n)).2

/-- The result of call number `n + 1` to `get_proving_system`. -/
def callResult (B : Backend) (n : Nat) : Except String ProvingSystem :=
  (get_proving_system B (callSeq B n)).1

/-! ## The backend service adapter (`backend/src/zkml/mod.rs`) -/

/-- The backend `Error` enum (`backend/src/error.rs`), the variants relevant
to the ZKML service plus its neighbours; there is no input-size variant. -/
inductive BackendError where
  | Config (msg : String)
  | AuthenticationFailed
  | Unauthorized
  | Blockchain (msg : String)
  | ProofGenerationFailed (msg : String)
  | ProofVerificationFailed
  | Validation (msg : String)
  | InvalidRequest (msg : String)
  | Internal
  | NotFound
  | BadRequest (msg : String)
deriving DecidableEq

/-- The `ZkProof` structure returned by the service; `created_at` is the
`chrono` timestamp, modelled as a natural number. -/
structure ZkProof where
  proof_data : List Byte
  public_inputs : List Byte
  circuit_type : String
  hash : List Byte
  created_at : Nat
deriving DecidableEq

/-- `ZkmlService::generate_sha256_proof`: call `generate_proof_slice`; a
sentinel result for nonempty data is a `ProofGenerationFailed` error; for
empty data an all-zero or mismatched hash is a `ProofGenerationFailed`
error; otherwise wrap the hash in a `ZkProof` with empty `proof_data`.
The `chrono::Utc::now()` timestamp is modelled as 0. -/
def generate_sha256_proof (B : Backend) (data : List Byte) :
    Except BackendError ZkProof :=
  let output := generate_proof_slice B data
  if output.len = 0 ∧ data ≠ [] then
    .error (.ProofGenerationFailed "Proof generation failed - prover returned empty result")
  else if data = [] ∧ output.hash = zeroHash32 then
    .error (.ProofGenerationFailed "Proof generation failed for empty data")
  else if data = [] ∧ output.hash ≠ sha256Bytes data then
    .error (.ProofGenerationFailed "Hash mismatch for empty data proof")
  else
    .ok { proof_data := [], public_inputs := output.hash, circuit_type := "sha256",
          hash := output.hash, created_at := 0 }

/-- `ZkmlService::verify_sha256_proof`: rebuild an `Output` from the data
length and the proof's stored hash and hand it to `verify_proof_slice`;
`proof.proof_data` is never read. -/
def verify_sha256_proof (proof : ZkProof) (original_data : List Byte) :
    Except BackendError Bool :=
  let output : Output := { len := original_data.length, hash := proof.hash }
  .ok (verify_proof_slice original_data output)

/-- The `CircuitInfo` record. -/
structure CircuitInfo where
  name : String
  description : String
  max_input_size : Nat
  estimated_proof_time_ms : Nat
  proof_size_bytes : Nat
  security_level : Nat
deriving DecidableEq

/-- `ZkmlService::get_sha256_circuit_info`: the published constants. -/
def get_sha256_circuit_info : CircuitInfo :=
  { name := "SHA256",
    description := "Halo2 SHA256 hash function circuit with zero-knowledge proofs",
    max_input_size := 8192,
    estimated_proof_time_ms := 718,
    proof_size_bytes := 1024,
    security_level := 128 }

/-- The fixed health-check input, the bytes of `b"health_check"`. -/
def healthData : List Byte :=
  [104, 101, 97, 108, 116, 104, 95, 99, 104, 101, 99, 107]

/-- `ZkmlService::health_check`: generate a proof for the fixed input and
return `Ok(output.len > 0)`. -/
def health_check (B : Backend) : Except BackendError Bool :=
  let output := generate_proof_slice B healthData
  .ok (decide (0 < output.len))

/-- A call into the prover library, for tracing which operations a service
method performs. -/
inductive ProverCall where
  | generateCall (data : List Byte)
  | verifyCall (data : List Byte) (output : Output)
deriving DecidableEq

/-- The prover-library invocations the body of `ZkmlService::health_check`
makes, in order: a single `generate_proof_slice(b"health_check")`; no
verification call appears in the body. -/
def health_check_calls : List ProverCall := [.generateCall healthData]

/-- Whether a prover-library call is a verification call. -/
def callIsVerify : ProverCall → Bool
  | .verifyCall _ _ => true
  | .generateCall _ => false

/-! ## Hex rendering, for the spec's digest literals -/

/-- One lowercase hex digit. -/
def hexDigitChar (n : Nat) : Char :=
  if n < 10 then Char.ofNat (48 + n) else Char.ofNat (87 + n)

/-- A byte string as its lowercase hex character sequence. -/
def bytesToHex (bs : List Byte) : List Char :=
  (bs.map (fun b => [hexDigitChar (b.val / 16), hexDigitChar (b.val % 16)])).flatten

/-! ## Concrete backends, for witnesses and counterexamples -/

/-- A backend on which every external halo2 call succeeds. -/
def okBackend : Backend :=
  { initOk := true,
    system := { params := 1, pk := 2, vk := 3 },
    proveOk := fun _ => true,
    proofBytes := fun _ => [],
    verifyCheck := fun _ _ => .ok () }

/-- A backend whose halo2 verifier rejects every transcript. -/
def rejectBackend : Backend :=
  { initOk := true,
    system := { params := 1, pk := 2, vk := 3 },
    proveOk := fun _ => true,
    proofBytes := fun _ => [],
    verifyCheck := fun _ _ => .error "transcript read failure" }

/-- A backend whose prover fails beyond the published 8192-byte capacity,
as a `k = 14` circuit does when its rows run out. -/
def capBackend : Backend :=
  { initOk := true,
    system := { params := 1, pk := 2, vk := 3 },
    proveOk := fun d => decide (d.length ≤ 8192),
    proofBytes := fun _ => [],
    verifyCheck := fun _ _ => .ok () }

/-- An input one byte beyond the published circuit capacity. -/
def bigInput : List Byte := List.replicate 8193 (0 : Byte)

/-! ## Helper lemmas -/

/-- The zero-padding loop appends exactly the minimal number of zeros making
the length congruent to 56 mod 64. -/
theorem padZeros_spec (l : List Byte) :
    padZeros l = l ++ List.replicate ((64 + 56 - l.length % 64) % 64) (0 : Byte) := by
  suffices h : ∀ d lst, (64 + 56 - lst.length % 64) % 64 = d →
      padZeros lst = lst ++ List.replicate d ((0 : Byte)) from h _ l rfl
  intro d
  induction d with
  | zero =>
      intro lst hd
      have h56 : lst.length % 64 = 56 := by omega
      rw [padZeros, if_pos h56]
      simp
  | succ d ih =>
      intro lst hd
      have h56 : lst.length % 64 ≠ 56 := by omega
      rw [padZeros, if_neg h56]
      have hm : (64 + 56 - (lst ++ [(0 : Byte)]).length % 64) % 64 = d := by
        simp only [List.length_append, List.length_cons, List.length_nil]
        omega
      rw [ih _ hm]
      simp [List.replicate_succ, List.append_assoc]

/-- The circuit padding equals the reference RFC 6234 padding byte-for-byte. -/
theorem padBytes_eq_spec (data : List Byte) : padBytes data = sha256PadSpec data := by
  unfold padBytes sha256PadSpec padSpecZeros
  rw [padZeros_spec]
  simp only [List.length_append, List.length_cons, List.length_nil, List.append_assoc]

/-- The padded byte length, in closed form. -/
theorem padBytes_length (data : List Byte) :
    (padBytes data).length = data.length + 1 + padSpecZeros data.length + 8 := by
  rw [padBytes_eq_spec]
  unfold sha256PadSpec be64Bytes
  simp [List.length_append]
  omega

/-- Successful proof generation yields the data length and the reference digest. -/
theorem generate_proof_slice_ok (B : Backend) (d : List Byte)
    (h1 : B.initOk = true) (h2 : B.proveOk d = true) :
    generate_proof_slice B d = { len := d.length, hash := sha256Bytes d } := by
  simp [generate_proof_slice, generate_proof_internal, expected_hash, h1, h2]

/-- Failed proof generation yields the sentinel output. -/
theorem generate_proof_slice_fail (B : Backend) (d : List Byte)
    (h : B.initOk = false ∨ B.proveOk d = false) :
    generate_proof_slice B d = { len := 0, hash := zeroHash32 } := by
  rcases h with h | h
  · simp [generate_proof_slice, generate_proof_internal, h]
  · by_cases h1 : B.initOk = true <;>
      simp [generate_proof_slice, generate_proof_internal, h, h1]

/-! ## Claims -/

/-- C1: for every byte sequence d, generating a proof for d (the external
prover succeeding) and then verifying that proof against the SHA-256 digest
of d returns true. -/
theorem C1_round_trip (B : Backend) (d : List Byte)
    (hinit : B.initOk = true) (hprove : B.proveOk d = true) :
    verify_proof_slice d (generate_proof_slice B d) = true := by
  rw [generate_proof_slice_ok B d hinit hprove]
  simp [verify_proof_slice]

/-- Witness for C1 at the one-byte input 0x61. -/
theorem C1_round_trip_witness :
    verify_proof_slice [97] (generate_proof_slice okBackend [97]) = true :=
  C1_round_trip okBackend [97] rfl rfl

/-- C2: for d1 and d2 with distinct digests, verifying the proof generated
for d1 against the data d2 returns false. -/
theorem C2_mismatch_rejected (B : Backend) (d1 d2 : List Byte)
    (hinit : B.initOk = true) (hprove : B.proveOk d1 = true)
    (hne : d1 ≠ d2) (hhash : sha256Bytes d1 ≠ sha256Bytes d2) :
    verify_proof_slice d2 (generate_proof_slice B d1) = false := by
  rw [generate_proof_slice_ok B d1 hinit hprove]
  simp [verify_proof_slice, hhash]

/-- Witness for C2 with d1 empty and d2 the one-byte input 0x61. -/
theorem C2_mismatch_rejected_witness :
    verify_proof_slice [97] (generate_proof_slice okBackend []) = false :=
  C2_mismatch_rejected okBackend [] [97] rfl rfl (by decide) (by decide)

/-- C4: the padding is total (a total function on all byte lists), the
padded bytes equal the reference RFC 6234 SHA-256 padding, and the padded
length is a positive multiple of 64 bytes. -/
theorem C4_padding_total_and_rfc (data : List Byte) :
    padBytes data = sha256PadSpec data ∧
    (padBytes data).length % 64 = 0 ∧
    0 < (padBytes data).length ∧
    data_as_padded_32bit_words data = bytesToWords (sha256PadSpec data) := by
  refine ⟨padBytes_eq_spec data, ?_, ?_, ?_⟩
  · rw [padBytes_length]
    unfold padSpecZeros
    omega
  · rw [padBytes_length]
    omega
  · rw [data_as_padded_32bit_words, padBytes_eq_spec]

/-- A ZkProof with an all-zero stored hash and a one-byte transcript. -/
def zkTransA : ZkProof :=
  { proof_data := [1], public_inputs := [], circuit_type := "sha256",
    hash := zeroHash32, created_at := 0 }

/-- The same ZkProof except for its transcript bytes. -/
def zkTransB : ZkProof :=
  { proof_data := [2], public_inputs := [], circuit_type := "sha256",
    hash := zeroHash32, created_at := 0 }

/-- C3 counterexample: two ZkProof values differing only in their
proof_data field verify identically, so the verification result does not
depend on the proof transcript bytes. -/
theorem C3_counterexample :
    verify_sha256_proof zkTransA [] = verify_sha256_proof zkTransB [] ∧
    zkTransA.proof_data ≠ zkTransB.proof_data ∧
    zkTransA.hash = zkTransB.hash ∧
    zkTransA.public_inputs = zkTransB.public_inputs ∧
    zkTransA.circuit_type = zkTransB.circuit_type ∧
    zkTransA.created_at = zkTransB.created_at :=
  ⟨rfl, by decide, rfl, rfl, rfl, rfl⟩

/-- C3 (amended): verify_sha256_proof never reads proof_data; its result is
determined by the stored hash alone, namely Ok of whether that hash equals
the reference SHA-256 digest of the original data. -/
theorem C3_verifier_ignores_transcript (p q : ZkProof) (d : List Byte)
    (hhash : q.hash = p.hash) :
    verify_sha256_proof q d = verify_sha256_proof p d ∧
    verify_sha256_proof p d = .ok (decide (p.hash = sha256Bytes d)) := by
  constructor
  · simp [verify_sha256_proof, verify_proof_slice, hhash]
  · rfl

/-- Witness for C3 at the two concrete transcript-differing proofs. -/
theorem C3_verifier_ignores_transcript_witness :
    verify_sha256_proof zkTransB [] = verify_sha256_proof zkTransA [] ∧
    verify_sha256_proof zkTransA [] = .ok (decide (zkTransA.hash = sha256Bytes [])) :=
  C3_verifier_ignores_transcript zkTransA zkTransB [] rfl

/-- C5: once the proving system is initialized, verification of any hash
against any proof bytes returns Ok true or Ok false, never an error, and
every failure of the external algebraic check maps to Ok false. -/
theorem C5_verifier_never_errors (B : Backend) (h p : List Byte)
    (hinit : B.initOk = true) (hlen : h.length = 32) :
    (verify_proof_internal B h p = .ok true ∨ verify_proof_internal B h p = .ok false) ∧
    (∀ e, B.verifyCheck h p = .error e → verify_proof_internal B h p = .ok false) := by
  constructor
  · unfold verify_proof_internal
    rw [if_pos hinit]
    cases B.verifyCheck h p <;> simp
  · intro e he
    unfold verify_proof_internal
    rw [if_pos hinit, he]

/-- Witness for C5 on a backend whose algebraic check rejects everything. -/
theorem C5_verifier_never_errors_witness :
    (verify_proof_internal rejectBackend zeroHash32 [] = .ok true ∨
     verify_proof_internal rejectBackend zeroHash32 [] = .ok false) ∧
    (∀ e, rejectBackend.verifyCheck zeroHash32 [] = .error e →
      verify_proof_internal rejectBackend zeroHash32 [] = .ok false) :=
  C5_verifier_never_errors rejectBackend zeroHash32 [] rfl (by decide)

/-- A failed generation on nonempty data surfaces as the generic
generation-failure error of the adapter. -/
theorem generate_sha256_proof_fail_nonempty (B : Backend) (d : List Byte)
    (hd : d ≠ []) (hg : generate_proof_slice B d = { len := 0, hash := zeroHash32 }) :
    generate_sha256_proof B d =
      .error (.ProofGenerationFailed "Proof generation failed - prover returned empty result") := by
  simp only [generate_sha256_proof, hg]
  rw [if_pos ⟨trivial, hd⟩]

/-- On the capacity-limited backend the oversized input fails proving and
the service surfaces the generic generation-failure error. -/
theorem capBackend_big_fails :
    generate_sha256_proof capBackend bigInput =
      .error (.ProofGenerationFailed "Proof generation failed - prover returned empty result") := by
  have hlen : bigInput.length = 8193 := by
    rw [bigInput, List.length_replicate]
  have hpgen : ∀ d : List Byte, capBackend.proveOk d = decide (d.length ≤ 8192) :=
    fun d => rfl
  have hp : capBackend.proveOk bigInput = false := by
    rw [hpgen, hlen]
    decide
  have hne : bigInput ≠ [] := by
    intro hc
    rw [hc] at hlen
    simp at hlen
  exact generate_sha256_proof_fail_nonempty capBackend bigInput hne
    (generate_proof_slice_fail capBackend bigInput (Or.inr hp))

/-- C6 counterexample: for an input one byte beyond the published
max_input_size of 8192, the service reports the generic
ProofGenerationFailed error of a generation failure, not a distinct
input-size error; no size check runs before proving. -/
theorem C6_counterexample :
    8192 < bigInput.length ∧
    get_sha256_circuit_info.max_input_size = 8192 ∧
    generate_sha256_proof capBackend bigInput =
      .error (.ProofGenerationFailed "Proof generation failed - prover returned empty result") := by
  refine ⟨?_, rfl, capBackend_big_fails⟩
  rw [bigInput, List.length_replicate]
  omega

/-- C6 (amended): generate_sha256_proof performs no input-size check; every
error it returns, for any input of any length, is the generic
ProofGenerationFailed variant. -/
theorem C6_no_distinct_size_error (B : Backend) (d : List Byte) (e : BackendError)
    (h : generate_sha256_proof B d = .error e) :
    ∃ msg, e = .ProofGenerationFailed msg := by
  simp only [generate_sha256_proof] at h
  split_ifs at h <;> simp only [Except.error.injEq, reduceCtorEq] at h
  all_goals exact ⟨_, h.symm⟩

/-- Witness for C6 at the oversized input on the capacity-limited backend. -/
theorem C6_no_distinct_size_error_witness :
    ∃ msg, BackendError.ProofGenerationFailed
        "Proof generation failed - prover returned empty result" =
      .ProofGenerationFailed msg :=
  C6_no_distinct_size_error capBackend bigInput
    (.ProofGenerationFailed "Proof generation failed - prover returned empty result")
    capBackend_big_fails

/-- The state reached by the first call to get_proving_system. -/
theorem callSeq_one (B : Backend) :
    callSeq B 1 =
      { onceDone := true,
        cached := if B.initOk then some B.system else none,
        setupRuns := 1 } := rfl

/-- After the first call the singleton state never changes again. -/
theorem callSeq_stable (B : Backend) (n : Nat) : callSeq B (n + 1) = callSeq B 1 := by
  induction n with
  | zero => rfl
  | succ n ih =>
      show (get_proving_system B (callSeq B (n + 1))).2 = _
      rw [ih, callSeq_one]
      simp [get_proving_system, runOnceInit]

/-- Every call to get_proving_system returns the same result as the first. -/
theorem callResult_const (B : Backend) (n : Nat) : callResult B n = callResult B 0 := by
  cases n with
  | zero => rfl
  | succ n =>
      unfold callResult
      rw [callSeq_stable, callSeq_one]
      cases hB : B.initOk <;>
        simp [get_proving_system, runOnceInit, callSeq, initState, hB]

/-- C7: across any sequence of calls to get_proving_system the expensive
setup runs at most once, and any two successful calls return the same cached
artifacts, namely the ones produced by the single setup run. -/
theorem C7_setup_at_most_once (B : Backend) (n m k : Nat) (ps1 ps2 : ProvingSystem)
    (h1 : callResult B m = .ok ps1) (h2 : callResult B k = .ok ps2) :
    (callSeq B n).setupRuns ≤ 1 ∧ ps1 = ps2 ∧ ps1 = B.system := by
  rw [callResult_const] at h1 h2
  constructor
  · cases n with
    | zero => simp [callSeq, initState]
    | succ n => rw [callSeq_stable, callSeq_one]
  · cases hB : B.initOk <;>
      simp [callResult, callSeq, get_proving_system, runOnceInit, initState, hB] at h1 h2
    exact ⟨h1.symm.trans h2, h1.symm⟩

/-- Witness for C7: three states and two successful calls on the concrete
backend. -/
theorem C7_setup_at_most_once_witness :
    (callSeq okBackend 3).setupRuns ≤ 1 ∧
    okBackend.system = okBackend.system ∧ okBackend.system = okBackend.system :=
  C7_setup_at_most_once okBackend 3 0 5 okBackend.system okBackend.system rfl rfl

/-- C8 counterexample: the body of health_check invokes the prover library
once, for generation on the fixed input, and performs no verification call,
so the self-test does not consist of both generating and verifying. -/
theorem C8_counterexample :
    health_check_calls.any callIsVerify = false ∧
    health_check_calls = [ProverCall.generateCall healthData] :=
  ⟨rfl, rfl⟩

/-- C8 (amended): health_check returns Ok true exactly when proof generation
on the fixed input succeeds (the returned length is positive); its body
makes no verification call. -/
theorem C8_health_is_generation_only (B : Backend) :
    (health_check B = .ok true ↔ (generate_proof_internal B healthData).isOk = true) ∧
    health_check_calls.any callIsVerify = false := by
  refine ⟨?_, rfl⟩
  unfold health_check generate_proof_slice
  cases hg : generate_proof_internal B healthData with
  | ok v =>
      obtain ⟨hsh, pb⟩ := v
      simp [healthData, Except.isOk, Except.toBool]
  | error e =>
      simp [Except.isOk, Except.toBool]

/-- C9 counterexample: the digest hex string the spec states for the empty
input has only 63 hex digits and is not the hex rendering of the SHA-256
digest of the empty byte string, which has 64. -/
theorem C9_counterexample :
    bytesToHex (sha256Bytes []) ≠
      "e3b0c44298fc1c149afbf4c8996fb92427ae41e4649b934ca495991b7852b85".toList ∧
    ("e3b0c44298fc1c149afbf4c8996fb92427ae41e4649b934ca495991b7852b85".toList).length = 63 ∧
    (bytesToHex (sha256Bytes [])).length = 64 := by
  refine ⟨by decide, by decide, by decide⟩

/-- C9 (amended): proving the empty byte string yields the digest whose hex
rendering is e3b0c44298fc1c149afbf4c8996fb92427ae41e4649b934ca495991b7852b855,
and verifying the resulting proof against that digest returns true. -/
theorem C9_empty_input_digest (B : Backend)
    (hinit : B.initOk = true) (hprove : B.proveOk [] = true) :
    (generate_proof_slice B []).hash = sha256Bytes [] ∧
    bytesToHex (sha256Bytes []) =
      "e3b0c44298fc1c149afbf4c8996fb92427ae41e4649b934ca495991b7852b855".toList ∧
    verify_proof_slice [] (generate_proof_slice B []) = true := by
  have hg := generate_proof_slice_ok B [] hinit hprove
  refine ⟨by rw [hg], by decide, ?_⟩
  rw [hg]
  simp [verify_proof_slice]

/-- Witness for C9 on the all-succeeding backend. -/
theorem C9_empty_input_digest_witness :
    (generate_proof_slice okBackend []).hash = sha256Bytes [] ∧
    bytesToHex (sha256Bytes []) =
      "e3b0c44298fc1c149afbf4c8996fb92427ae41e4649b934ca495991b7852b855".toList ∧
    verify_proof_slice [] (generate_proof_slice okBackend []) = true :=
  C9_empty_input_digest okBackend rfl rfl

/-- C10: every generation result is either the success output carrying the
data length and the reference digest, or the failure sentinel; for the empty
input the length field is 0 either way, and the service adapter succeeds on
the empty input exactly when the hash differs from the all-zero sentinel
hash. -/
theorem C10_output_success_or_sentinel (B : Backend) (d : List Byte) :
    (generate_proof_slice B d = { len := d.length, hash := sha256Bytes d } ∨
     generate_proof_slice B d = { len := 0, hash := zeroHash32 }) ∧
    (generate_proof_slice B []).len = 0 ∧
    ((generate_sha256_proof B []).isOk = true ↔
      (generate_proof_slice B []).hash ≠ zeroHash32) := by
  refine ⟨?_, ?_, ?_⟩
  · by_cases h1 : B.initOk = true
    · by_cases h2 : B.proveOk d = true
      · exact .inl (generate_proof_slice_ok B d h1 h2)
      · exact .inr (generate_proof_slice_fail B d (.inr (by simpa using h2)))
    · exact .inr (generate_proof_slice_fail B d (.inl (by simpa using h1)))
  · cases hg : generate_proof_internal B [] with
    | ok v =>
        obtain ⟨hsh, pb⟩ := v
        simp [generate_proof_slice, hg]
    | error e =>
        simp [generate_proof_slice, hg]
  · by_cases h1 : B.initOk = true
    · by_cases h2 : B.proveOk [] = true
      · have hg := generate_proof_slice_ok B [] h1 h2
        simp only [generate_sha256_proof, hg]
        decide
      · have hg := generate_proof_slice_fail B [] (.inr (by simpa using h2))
        simp only [generate_sha256_proof, hg]
        decide
    · have hg := generate_proof_slice_fail B [] (.inl (by simpa using h1))
      simp only [generate_sha256_proof, hg]
      decide
